import Mathlib

/-!
Verification of the retroMenu repository against its natural-language
specification.  The Python sources are shallowly embedded as Lean
definitions: pure string manipulation becomes functions on `List Char`,
Python dictionaries become association lists over a small value type,
network calls become oracle parameters describing the outcome of the call,
and Python exceptions become `Except String` (the error carries the
message).  All definitions are translated from the source files under
`src/`, keeping the source names.
-/

set_option maxRecDepth 4096

namespace RetroMenu

/-! ## Python values and dictionaries

Result objects in `advanced_social_stats.py` are Python dicts mapping
string keys to strings, ints, lists of dicts, and nested dicts.  We model
them as association lists over `PyVal`. -/

inductive PyVal where
  | str (s : String)
  | int (n : Int)
  | listv (l : List PyVal)
  | dictv (d : List (String × PyVal))

/-- A Python dict with string keys, as produced by the statistics code. -/
def Dict := List (String × PyVal)

/-- Lookup of a key in a dict (first binding wins; keys are unique in all
dicts the embedded code builds). -/
def dictGet (d : Dict) (k : String) : Option PyVal :=
  match d with
  | [] => none
  | (k2, v) :: rest => if k2 = k then some v else dictGet rest k

/-- Membership test, modelling the Python expression `k in d`. -/
def dictHasKey (d : Dict) (k : String) : Bool :=
  (dictGet d k).isSome

/-- Python truthiness of a dict: the empty dict is falsy. -/
def dictTruthy (d : Dict) : Bool :=
  !d.isEmpty

/-! ## Regular-expression style scanners

The source extracts ids from URLs with `re.search`.  Each pattern used is
a literal followed by a greedy character-class capture; because the
character classes involved never overlap the characters that follow them,
maximal munch coincides with the backtracking semantics of `re`, so the
scanners below are faithful.  `re.search` tries the pattern at every
position from the left; on failure at one position it advances one
character.  All inputs are ASCII URLs, so `Char.isDigit` matches `\d`. -/

/-- At position `s`, try literal `lit` followed by one or more characters
satisfying `cls`; otherwise advance one character (the `re.search` loop).
Returns the captured group. -/
def searchLitCapture (lit : List Char) (cls : Char → Bool) : List Char → Option (List Char)
  | [] => none
  | c :: cs =>
    if lit.isPrefixOf (c :: cs) then
      let run := ((c :: cs).drop lit.length).takeWhile cls
      if run.isEmpty then searchLitCapture lit cls cs else some run
    else
      searchLitCapture lit cls cs

/-- Character class `[a-zA-Z0-9_-]`, used by the YouTube video-id patterns. -/
def isYtIdChar (c : Char) : Bool :=
  c.isAlpha || c.isDigit || c = '_' || c = '-'

/-- Character class `[^/?]`, used by the username patterns. -/
def notSlashQuery (c : Char) : Bool :=
  !(c = '/' || c = '?')

/-- Embeds `_extract_youtube_video_id` (advanced_social_stats.py): tries
the patterns `youtube\.com/shorts/([a-zA-Z0-9_-]+)`,
`youtube\.com/watch\?v=([a-zA-Z0-9_-]+)`, `youtu\.be/([a-zA-Z0-9_-]+)`
in order. -/
def _extract_youtube_video_id (url : String) : Option String :=
  match searchLitCapture "youtube.com/shorts/".data isYtIdChar url.data with
  | some g => some (String.mk g)
  | none =>
    match searchLitCapture "youtube.com/watch?v=".data isYtIdChar url.data with
    | some g => some (String.mk g)
    | none =>
      match searchLitCapture "youtu.be/".data isYtIdChar url.data with
      | some g => some (String.mk g)
      | none => none

/-- Embeds `_extract_instagram_username`: `instagram\.com/([^/?]+)`. -/
def _extract_instagram_username (url : String) : Option String :=
  (searchLitCapture "instagram.com/".data notSlashQuery url.data).map String.mk

/-- At position `s`, try `instagram\.com/reels?/([^/?]+)` (the `s` in
`reels` optional); otherwise advance one character. -/
def searchReelPattern : List Char → Option (List Char)
  | [] => none
  | c :: cs =>
    if "instagram.com/reel".data.isPrefixOf (c :: cs) then
      let rest := (c :: cs).drop 18
      let afterSlash : Option (List Char) :=
        match rest with
        | x :: y :: tail =>
          if x = 's' && y = '/' then some tail
          else if x = '/' then some (y :: tail)
          else none
        | x :: tail => if x = '/' then some tail else none
        | [] => none
      match afterSlash with
      | some body =>
        let run := body.takeWhile notSlashQuery
        if run.isEmpty then searchReelPattern cs else some run
      | none => searchReelPattern cs
    else
      searchReelPattern cs

/-- Embeds `_extract_instagram_reel_id`: tries
`instagram\.com/reels?/([^/?]+)` then `instagram\.com/p/([^/?]+)`. -/
def _extract_instagram_reel_id (url : String) : Option String :=
  match searchReelPattern url.data with
  | some g => some (String.mk g)
  | none => (searchLitCapture "instagram.com/p/".data notSlashQuery url.data).map String.mk

/-- Embeds `_extract_tiktok_username`: `tiktok\.com/@([^/?]+)`. -/
def _extract_tiktok_username (url : String) : Option String :=
  (searchLitCapture "tiktok.com/@".data notSlashQuery url.data).map String.mk

/-- At position `s`, try `clip(\d+)_(\d+)`; otherwise advance one
character.  Returns both captured digit groups. -/
def searchClipPair : List Char → Option (List Char × List Char)
  | [] => none
  | c :: cs =>
    if "clip".data.isPrefixOf (c :: cs) then
      let r1 := (c :: cs).drop 4
      let d1 := r1.takeWhile Char.isDigit
      if d1.isEmpty then searchClipPair cs
      else
        match r1.drop d1.length with
        | x :: r2 =>
          if x = '_' then
            let d2 := r2.takeWhile Char.isDigit
            if d2.isEmpty then searchClipPair cs else some (d1, d2)
          else searchClipPair cs
        | [] => searchClipPair cs
    else
      searchClipPair cs

/-- At position `s`, try `z=clip\d+_(\d+)`; otherwise advance one
character. -/
def searchZClip : List Char → Option (List Char)
  | [] => none
  | c :: cs =>
    if "z=clip".data.isPrefixOf (c :: cs) then
      let r1 := (c :: cs).drop 6
      let d1 := r1.takeWhile Char.isDigit
      if d1.isEmpty then searchZClip cs
      else
        match r1.drop d1.length with
        | x :: r2 =>
          if x = '_' then
            let d2 := r2.takeWhile Char.isDigit
            if d2.isEmpty then searchZClip cs else some d2
          else searchZClip cs
        | [] => searchZClip cs
    else
      searchZClip cs

/-- Embeds `_extract_vk_video_id`: first `clip(\d+)_(\d+)` (returning
group 2), then `z=clip\d+_(\d+)`. -/
def _extract_vk_video_id (url : String) : Option String :=
  match searchClipPair url.data with
  | some (_, d2) => some (String.mk d2)
  | none => (searchZClip url.data).map String.mk

/-- Embeds `_extract_vk_owner_id`: first `owner=(\d+)`, then
`clip(\d+)_\d+` (returning group 1). -/
def _extract_vk_owner_id (url : String) : Option String :=
  match searchLitCapture "owner=".data Char.isDigit url.data with
  | some g => some (String.mk g)
  | none => (searchClipPair url.data).map (fun p => String.mk p.1)

/-! ## Number parsing (`_parse_number`)

`_parse_number` strips commas, spaces and double quotes, then checks the
uppercased text for the letters K, M, B (anywhere, in insertion order of
the multipliers dict).  When one is found it takes the FIRST match of
`[\d.]+` in the text, converts it with `float`, multiplies and truncates
with `int`.  `re.findall(...)[0]` raises `IndexError` when the text has no
`[\d.]` characters, and `float` raises `ValueError` on tokens such as "."
or "1.2.3"; the function has no try/except, so these escape to the
caller.  Python truncation `int(x)` for the nonnegative values arising
here is the floor. -/

/-- The step removing every comma, space and double-quote character. -/
def stripPy (text : String) : List Char :=
  text.data.filter (fun c => !(c = ',' || c = ' ' || c = '"'))

/-- Character class `[\d.]`. -/
def isNumChar (c : Char) : Bool :=
  c.isDigit || c = '.'

/-- First maximal run of `[\d.]` characters: `re.findall(r"[\d.]+", t)[0]`,
or `none` when `findall` returns the empty list. -/
def firstNumToken : List Char → Option (List Char)
  | [] => none
  | c :: cs => if isNumChar c then some (c :: cs.takeWhile isNumChar) else firstNumToken cs

/-- Value of a digit string (tokens here never overflow in Python). -/
def digitsVal (ds : List Char) : Nat :=
  ds.foldl (fun n c => n * 10 + (c.toNat - 48)) 0

/-- Embeds Python `float(tok)` for a token made of digits and dots: it
succeeds when there is at most one dot and at least one digit, otherwise
raises `ValueError`.  The value is the exact decimal
`mantissa / 10 ^ places`, returned as the pair (mantissa, places).
Python holds the value in binary floating point; the binary rounding is
far smaller than the distance to an integer boundary on every concrete
computation settled in this file, so the exact decimal model gives the
same truncated integers. -/
def pyFloat (tok : List Char) : Except String (Nat × Nat) :=
  if tok.count '.' ≤ 1 && tok.any Char.isDigit then
    let ip := tok.takeWhile Char.isDigit
    let fp := (tok.drop (ip.length + 1)).takeWhile Char.isDigit
    Except.ok (digitsVal ip * 10 ^ fp.length + digitsVal fp, fp.length)
  else
    Except.error "ValueError: could not convert string to float"

/-- Python `int(v * mult)` for the nonnegative decimal
`v = mantissa / 10 ^ places`: truncation toward zero, which for
nonnegative values is exact floor division. -/
def truncScaled (mp : Nat × Nat) (mult : Nat) : Int :=
  ((mp.1 * mult) / 10 ^ mp.2 : Nat)

/-- Embeds `_parse_number` (advanced_social_stats.py:1227).  The
`Except.error` case models an exception escaping the function. -/
def _parse_number (text : String) : Except String Int :=
  if text = "" then Except.ok 0
  else
    let t := stripPy text
    let up := t.map Char.toUpper
    if up.contains 'K' then
      match firstNumToken t with
      | none => Except.error "IndexError: list index out of range"
      | some tok => (pyFloat tok).map (fun mp => truncScaled mp 1000)
    else if up.contains 'M' then
      match firstNumToken t with
      | none => Except.error "IndexError: list index out of range"
      | some tok => (pyFloat tok).map (fun mp => truncScaled mp 1000000)
    else if up.contains 'B' then
      match firstNumToken t with
      | none => Except.error "IndexError: list index out of range"
      | some tok => (pyFloat tok).map (fun mp => truncScaled mp 1000000000)
    else
      match firstNumToken t with
      | none => Except.ok 0
      | some tok => (pyFloat tok).map (fun mp => truncScaled mp 1)

/-! ## Shorts classification (`_is_short`) -/

/-- One optional component `(?:(\d+)LETTER)?` of the duration pattern at
the current position: a nonempty digit run immediately followed by the
letter consumes both and yields the value; otherwise the group matches
zero-width and `int(group or 0)` yields 0. -/
def parseDurComp (letter : Char) (cs : List Char) : Nat × List Char :=
  let ds := cs.takeWhile Char.isDigit
  if ds.isEmpty then (0, cs)
  else
    match cs.drop ds.length with
    | x :: rest => if x = letter then (digitsVal ds, rest) else (0, cs)
    | [] => (0, cs)

/-- Embeds `_is_short` (advanced_social_stats.py:328).  The source
receives the video-details dict and reads its `duration` field; we embed
it as a function of that field.  `re.match(r"PT(?:(\d+)H)?(?:(\d+)M)?(?:(\d+)S)?", d)`
is anchored at the start and fails only when the string does not begin
with `PT`; all three groups are optional and absent groups count as 0. -/
def _is_short (duration : String) : Bool :=
  if duration = "" then false
  else
    match duration.data with
    | p :: t :: rest =>
      if p = 'P' && t = 'T' then
        let hc := parseDurComp 'H' rest
        let mc := parseDurComp 'M' hc.2
        let sc := parseDurComp 'S' mc.2
        decide (hc.1 * 3600 + mc.1 * 60 + sc.1 ≤ 60)
      else false
    | _ => false

/-! ## Aggregator entry points

Each public entry point of `AdvancedSocialStatsChecker` wraps its body in
`try/except Exception` and chains fallback methods.  The network-dependent
helper methods are modelled as oracle parameters of type
`Except String (Option Dict)`: `Except.error e` is an exception with
message `e` raised while the helper runs and escaping into the entry
point body (where the surrounding try/except catches it), `Except.ok none`
is the helper returning `None`, and `Except.ok (some d)` is the helper
returning the dict `d`.  Every entry point returns the produced dict
together with the list of helper methods it invoked, in order. -/

/-- Outcome of one helper-method call. -/
def MethodOutcome := Except String (Option Dict)

/-- The `except Exception as e: return ...` branch of every entry point. -/
def errDict (platform e : String) : Dict :=
  [("platform", PyVal.str platform), ("error", PyVal.str e)]

/-- The chain step: a helper result is accepted when it is truthy and
carries no error key (the `if result and ... not in result` pattern). -/
def methodPass (r : Option Dict) : Option Dict :=
  match r with
  | some d => if dictTruthy d && !dictHasKey d "error" then some d else none
  | none => none

/-- The plain truthiness step `if result: return ...`. -/
def optTruthy (r : Option Dict) : Option Dict :=
  match r with
  | some d => if dictTruthy d then some d else none
  | none => none

/-- Placeholder `_youtube_analytics_stats`: always returns `None`. -/
def _youtube_analytics_stats : Option Dict := none

/-- Placeholder `_instagram_api_stats`: always returns `None`. -/
def _instagram_api_stats : Option Dict := none

/-- Placeholder `_instagram_graph_stats`: always returns `None`. -/
def _instagram_graph_stats : Option Dict := none

/-- Placeholder `_tiktok_api_stats`: always returns `None`. -/
def _tiktok_api_stats : Option Dict := none

/-- Methods 2 and 3 of `check_youtube_stats`: scraping, then the
analytics placeholder, then the all-methods-failed dict. -/
def youtubeChainRest (scrapOutcome : MethodOutcome) (log : List String) : Dict × List String :=
  match scrapOutcome with
  | Except.error e => (errDict "YouTube" e, log ++ ["_youtube_scraping_stats"])
  | Except.ok r =>
    match methodPass r with
    | some d => (d, log ++ ["_youtube_scraping_stats"])
    | none =>
      match methodPass _youtube_analytics_stats with
      | some d => (d, log ++ ["_youtube_scraping_stats", "_youtube_analytics_stats"])
      | none =>
        (errDict "YouTube" "Wszystkie metody nieudane",
         log ++ ["_youtube_scraping_stats", "_youtube_analytics_stats"])

/-- Embeds `check_youtube_stats` (advanced_social_stats.py:74). -/
def check_youtube_stats (_channel_url : String) (hasYoutubeKey : Bool)
    (apiOutcome scrapOutcome : MethodOutcome) : Dict × List String :=
  if hasYoutubeKey then
    match apiOutcome with
    | Except.error e => (errDict "YouTube" e, ["_youtube_api_stats"])
    | Except.ok r =>
      match methodPass r with
      | some d => (d, ["_youtube_api_stats"])
      | none => youtubeChainRest scrapOutcome ["_youtube_api_stats"]
  else youtubeChainRest scrapOutcome []

/-- The scraping fallback of `get_youtube_short_data`. -/
def youtubeShortScrapRest (short_url : String) (scrapOutcome : MethodOutcome)
    (log : List String) : Dict × List String :=
  match scrapOutcome with
  | Except.error e => (errDict "YouTube" e, log ++ ["_get_youtube_short_scraping"])
  | Except.ok r =>
    match optTruthy r with
    | some sd =>
      ([("platform", PyVal.str "YouTube"), ("url", PyVal.str short_url),
        ("shorts", PyVal.listv [PyVal.dictv sd]), ("method", PyVal.str "Scraping")],
       log ++ ["_get_youtube_short_scraping"])
    | none =>
      (errDict "YouTube" "Nie można pobrać danych short",
       log ++ ["_get_youtube_short_scraping"])

/-- Embeds `get_youtube_short_data` (advanced_social_stats.py:99). -/
def get_youtube_short_data (short_url : String) (hasYoutubeKey : Bool)
    (byIdOutcome scrapOutcome : MethodOutcome) : Dict × List String :=
  match _extract_youtube_video_id short_url with
  | none => (errDict "YouTube" "Nie można wyciągnąć video ID z URL", [])
  | some _vid =>
    if hasYoutubeKey then
      match byIdOutcome with
      | Except.error e => (errDict "YouTube" e, ["_get_youtube_short_by_id"])
      | Except.ok r =>
        match optTruthy r with
        | some sd =>
          ([("platform", PyVal.str "YouTube"), ("url", PyVal.str short_url),
            ("shorts", PyVal.listv [PyVal.dictv sd]), ("method", PyVal.str "YouTube API")],
           ["_get_youtube_short_by_id"])
        | none => youtubeShortScrapRest short_url scrapOutcome ["_get_youtube_short_by_id"]
    else youtubeShortScrapRest short_url scrapOutcome []

/-- Embeds `check_instagram_stats` (advanced_social_stats.py:430). -/
def check_instagram_stats (profile_url : String) (hasInstagramKey : Bool)
    (scrapOutcome : MethodOutcome) : Dict × List String :=
  match _extract_instagram_username profile_url with
  | none => (errDict "Instagram" "Nie można wyciągnąć username", [])
  | some _u =>
    let log0 : List String := if hasInstagramKey then ["_instagram_api_stats"] else []
    let apiPass := if hasInstagramKey then methodPass _instagram_api_stats else none
    match apiPass with
    | some d => (d, log0)
    | none =>
      match scrapOutcome with
      | Except.error e => (errDict "Instagram" e, log0 ++ ["_instagram_scraping_stats"])
      | Except.ok r =>
        match methodPass r with
        | some d => (d, log0 ++ ["_instagram_scraping_stats"])
        | none =>
          match methodPass _instagram_graph_stats with
          | some d => (d, log0 ++ ["_instagram_scraping_stats", "_instagram_graph_stats"])
          | none =>
            (errDict "Instagram" "Wszystkie metody nieudane",
             log0 ++ ["_instagram_scraping_stats", "_instagram_graph_stats"])

/-- Embeds `get_instagram_reel_data` (advanced_social_stats.py:520).  The
oracle is the result of `_download_instagram_reel_with_ytdlp`: a local
file path, `None`, or an escaping exception. -/
def get_instagram_reel_data (reel_url : String)
    (dlOutcome : Except String (Option String)) : Dict × List String :=
  match _extract_instagram_reel_id reel_url with
  | none => (errDict "Instagram" "Nie można wyciągnąć reel ID z URL", [])
  | some rid =>
    match dlOutcome with
    | Except.error e => (errDict "Instagram" e, ["_download_instagram_reel_with_ytdlp"])
    | Except.ok (some p) =>
      if p = "" then
        (errDict "Instagram" "Nie można pobrać video", ["_download_instagram_reel_with_ytdlp"])
      else
        ([("platform", PyVal.str "Instagram"), ("url", PyVal.str reel_url),
          ("reel_id", PyVal.str rid), ("video_path", PyVal.str p),
          ("method", PyVal.str "yt-dlp"),
          ("reels", PyVal.listv [PyVal.dictv
            [("reel_id", PyVal.str rid), ("url", PyVal.str reel_url),
             ("video_path", PyVal.str p)]])],
         ["_download_instagram_reel_with_ytdlp"])
    | Except.ok none =>
      (errDict "Instagram" "Nie można pobrać video", ["_download_instagram_reel_with_ytdlp"])

/-- Embeds `check_tiktok_stats` (advanced_social_stats.py:640). -/
def check_tiktok_stats (profile_url : String) (hasTiktokKey : Bool)
    (scrapOutcome : MethodOutcome) : Dict × List String :=
  match _extract_tiktok_username profile_url with
  | none => (errDict "TikTok" "Nie można wyciągnąć username", [])
  | some _u =>
    let log0 : List String := if hasTiktokKey then ["_tiktok_api_stats"] else []
    let apiPass := if hasTiktokKey then methodPass _tiktok_api_stats else none
    match apiPass with
    | some d => (d, log0)
    | none =>
      match scrapOutcome with
      | Except.error e => (errDict "TikTok" e, log0 ++ ["_tiktok_scraping_stats"])
      | Except.ok r =>
        match methodPass r with
        | some d => (d, log0 ++ ["_tiktok_scraping_stats"])
        | none =>
          (errDict "TikTok" "Wszystkie metody nieudane",
           log0 ++ ["_tiktok_scraping_stats"])

/-- Message of the `AttributeError` raised inside `check_vk_stats`; Python
formats the class and attribute names with quotes, omitted here. -/
def vkAttributeError : String :=
  "AttributeError: AdvancedSocialStatsChecker object has no attribute _extract_vk_user_id"

/-- Embeds `check_vk_stats` (advanced_social_stats.py:719).  The body
begins with `user_id = self._extract_vk_user_id(profile_url)`, but the
class defines no method named `_extract_vk_user_id`, so every call raises
`AttributeError`, which the surrounding `except Exception` converts into
an error dict.  The clips oracle is kept as a parameter to record that no
clip fetching (API or scraping) is ever attempted. -/
def check_vk_stats (_profile_url : String) (_clipsOutcome : MethodOutcome) :
    Dict × List String :=
  (errDict "VK" vkAttributeError, [])

/-- Embeds `check_likee_stats` (advanced_social_stats.py:1165): Likee has
no official API, so only the scraping method is tried. -/
def check_likee_stats (_profile_url : String) (scrapOutcome : MethodOutcome) :
    Dict × List String :=
  match scrapOutcome with
  | Except.error e => (errDict "Likee" e, ["_likee_scraping_stats"])
  | Except.ok r =>
    match methodPass r with
    | some d => (d, ["_likee_scraping_stats"])
    | none => (errDict "Likee" "Wszystkie metody nieudane", ["_likee_scraping_stats"])

/-- Embeds `get_vk_clip_data` (advanced_social_stats.py:737): extracts
video and owner ids from the URL, then fetches TYLKO (only) through the
VK API when a key is configured; there is no scraping fallback. -/
def get_vk_clip_data (clip_url : String) (hasVkKey : Bool)
    (byIdOutcome : MethodOutcome) : Dict × List String :=
  match _extract_vk_video_id clip_url with
  | none => (errDict "VK" "Nie można wyciągnąć video ID z URL", [])
  | some _vid =>
    match _extract_vk_owner_id clip_url with
    | none => (errDict "VK" "Nie można wyciągnąć owner ID z URL", [])
    | some _oid =>
      if hasVkKey then
        match byIdOutcome with
        | Except.error e => (errDict "VK" e, ["_get_vk_clip_by_id"])
        | Except.ok r =>
          match optTruthy r with
          | some cd =>
            ([("platform", PyVal.str "VK"), ("url", PyVal.str clip_url),
              ("clips", PyVal.listv [PyVal.dictv cd]), ("method", PyVal.str "VK API")],
             ["_get_vk_clip_by_id"])
          | none => (errDict "VK" "VK API nie zwrócił danych", ["_get_vk_clip_by_id"])
      else (errDict "VK" "Brak VK API key", [])

/-! ## Video difference (`calculate_video_difference`, telegram_bot.py:1598)

Metadata values (durations, frame rates, byte sizes) are modelled as exact
rationals; the Python source computes with binary floats, whose rounding
stays well inside the bounds proved below.  The final `round(x, 1)` is
round-half-to-even at one decimal place. -/

/-- Metadata `moviepy` and `os.path.getsize` report for one video file. -/
structure VideoMeta where
  duration : ℚ
  fps : ℚ
  size : ℚ

/-- Round-half-to-even to an integer, the Python `round` rule. -/
def pyRoundInt (q : ℚ) : ℤ :=
  let f : ℤ := ⌊q⌋
  let r : ℚ := q - (f : ℚ)
  if r < 1 / 2 then f
  else if 1 / 2 < r then f + 1
  else if f % 2 = 0 then f else f + 1

/-- Python `round(q, 1)`. -/
def pyRound1 (q : ℚ) : ℚ :=
  (pyRoundInt (q * 10) : ℚ) / 10

/-- Embeds `calculate_video_difference`.  `none` models any exception
while inspecting either file (the `except` branch returning the fixed
fallback 3.0); `some (o, p)` carries the inspected metadata of the
original and processed files. -/
def calculate_video_difference (inspected : Option (VideoMeta × VideoMeta)) : ℚ :=
  match inspected with
  | none => 3
  | some (o, p) =>
    let duration_diff := if 0 < o.duration then |o.duration - p.duration| / o.duration * 100 else 0
    let size_diff := if 0 < o.size then |o.size - p.size| / o.size * 100 else 0
    let fps_diff := if 0 < o.fps then |o.fps - p.fps| / o.fps * 100 else 0
    let total_difference := duration_diff * (4 / 10) + size_diff * (3 / 10) + fps_diff * (3 / 10)
    let clamped := max 1 (min 100 total_difference)
    pyRound1 clamped

/-! ## Scene state machine (`core/state_machine.py`)

Registered scenes are represented by their registration names; `states`
is the key set of the name-to-scene dict, and `current_state` /
`next_state` hold scene names.  The `enter`, `exit` and `update` hooks of
the scenes are side-effecting; their invocations are recorded as an event
trace, and the Boolean oracles say which hook invocations raise (the
machine catches those exceptions as in the source). -/

/-- State machine fields (`__init__`). -/
structure StateMachine where
  states : List String
  current_state : Option String
  next_state : Option String

/-- Scene lifecycle events observed during `update`. -/
inductive SceneEv where
  | exitOk (s : String)
  | exitErr (s : String)
  | enterOk (s : String)
  | enterErr (s : String)
  | updateOk (s : String)
  | updateErr (s : String)

/-- Embeds `StateMachine.change_state`: validates the name against the
registered dict; an unknown name raises `ValueError` (re-raised by the
handler), mutating nothing; a known name only records the pending
transition.  The returned pair is the machine after the call and the
raised-or-not outcome. -/
def change_state (m : StateMachine) (name : String) : StateMachine × Except String Unit :=
  if m.states.contains name then
    ({ m with next_state := some name }, Except.ok ())
  else
    (m, Except.error ("State " ++ name ++ " not found"))

/-- The transition block at the top of `StateMachine.update`: runs the
old scene exit hook (its exception is caught and ignored), assigns the
new scene and runs its enter hook; when the enter hook raises, falls back
to the registered menu scene; the `finally` always clears the pending
slot.  The Boolean result records whether an exception escaped the inner
block (a failing fallback enter), which aborts the rest of `update`. -/
def transitionPhase (m : StateMachine) (exitFails enterFails : String → Bool) :
    StateMachine × List SceneEv × Bool :=
  match m.next_state with
  | none => (m, [], false)
  | some n =>
    let exitEvs : List SceneEv :=
      match m.current_state with
      | some c => [if exitFails c then SceneEv.exitErr c else SceneEv.exitOk c]
      | none => []
    if m.states.contains n then
      if enterFails n then
        if m.states.contains "menu" then
          if enterFails "menu" then
            ({ m with current_state := some "menu", next_state := none },
             exitEvs ++ [SceneEv.enterErr n, SceneEv.enterErr "menu"], true)
          else
            ({ m with current_state := some "menu", next_state := none },
             exitEvs ++ [SceneEv.enterErr n, SceneEv.enterOk "menu"], false)
        else
          ({ m with current_state := some n, next_state := none },
           exitEvs ++ [SceneEv.enterErr n], false)
      else
        ({ m with current_state := some n, next_state := none },
         exitEvs ++ [SceneEv.enterOk n], false)
    else
      if m.states.contains "menu" then
        if enterFails "menu" then
          ({ m with current_state := some "menu", next_state := none },
           exitEvs ++ [SceneEv.enterErr "menu"], true)
        else
          ({ m with current_state := some "menu", next_state := none },
           exitEvs ++ [SceneEv.enterOk "menu"], false)
      else
        ({ m with next_state := none }, exitEvs, false)

/-- Embeds `StateMachine.update`: the transition block, then one `update`
call on the current scene (whose exception is caught and logged). -/
def machineUpdate (m : StateMachine) (exitFails enterFails updateFails : String → Bool) :
    StateMachine × List SceneEv :=
  let step := transitionPhase m exitFails enterFails
  if step.2.2 then (step.1, step.2.1)
  else
    match step.1.current_state with
    | some c =>
      (step.1, step.2.1 ++ [if updateFails c then SceneEv.updateErr c else SceneEv.updateOk c])
    | none => (step.1, step.2.1)

/-! ## Menu (`ui/components.py`) -/

/-- Menu fields relevant to selection (drawing state omitted). -/
structure Menu where
  options : List String
  selected_index : Int

/-- Embeds `Menu.select_next`:
`selected_index = (selected_index + 1) % len(options)`.  Lean `Int.emod`
agrees with the Python `%` for a positive modulus. -/
def select_next (m : Menu) : Menu :=
  { m with selected_index := (m.selected_index + 1) % (m.options.length : Int) }

/-- Embeds `Menu.select_previous`:
`selected_index = (selected_index - 1) % len(options)`. -/
def select_previous (m : Menu) : Menu :=
  { m with selected_index := (m.selected_index - 1) % (m.options.length : Int) }

/-! ## Daily views report (`daily_views_report.py`) -/

/-- A worksheet as `get_all_values` reports it: a list of rows of cell
strings.  `sheet.update(values=[headers], range_name="A1")` rewrites the
first row. -/
structure Sheet where
  rows : List (List String)

/-- Substring occurrence test, the Python `needle in haystack` on strings. -/
def containsSubstr (needle : List Char) : List Char → Bool
  | [] => needle.isEmpty
  | c :: cs => needle.isPrefixOf (c :: cs) || containsSubstr needle cs

/-- The check `"Дата добавления" in str(h)` applied to one header cell. -/
def cellHasDateMark (h : String) : Bool :=
  containsSubstr "Дата добавления".data h.data

/-- The full header title appended by `ensure_date_header`. -/
def dateHeaderTitle : String := "Дата добавления записи"

/-- Embeds `ensure_date_header` (daily_views_report.py:242): on a sheet
with at least one row, appends the record-added-date header to row 1 when
no cell of row 1 contains the mark, returning `true`; otherwise performs
no write and returns `false` (also on an empty sheet). -/
def ensure_date_header (s : Sheet) : Sheet × Bool :=
  match s.rows with
  | [] => (s, false)
  | headers :: rest =>
    if headers.any cellHasDateMark then (s, false)
    else ({ rows := (headers ++ [dateHeaderTitle]) :: rest }, true)

/-- The sheet after `n` further calls of `ensure_date_header`. -/
def iterateEnsure : Nat → Sheet → Sheet
  | 0, s => s
  | n + 1, s => iterateEnsure n (ensure_date_header s).1

/-! ## Input field (`ui/input_field.py`)

The text is a list of characters, the cursor an index into it.  Each
constructor of `FieldOp` is one key event the `handle_input` poll can
dispatch on (plus the public `clear`).  Pyxel key constants and the
clipboard library are abstracted away; the clip argument of a paste is
the clipboard content. -/

/-- Input field state (drawing fields omitted). -/
structure InputField where
  text : List Char
  cursor_position : Nat
  max_length : Nat
  active : Bool
  clipboard_available : Bool

/-- One key event handled by `InputField.handle_input`. -/
inductive FieldOp where
  | copyOp
  | pasteOp (clip : List Char)
  | selectAllClear
  | leftKey
  | rightKey
  | homeKey
  | endKey
  | backspaceKey
  | deleteKey
  | charKey (c : Char) (shift : Bool)

/-- The `shift_map` dict for shifted symbol keys.  The brace characters
are written numerically, and `Char.ofNat 39` is the apostrophe key whose
shifted form is the double quote. -/
def shiftSymbolMap : List (Char × Char) :=
  [('2', '@'), ('3', '#'), ('4', '$'), ('5', '%'), ('6', '^'),
   ('7', '&'), ('8', '*'), ('9', '('), ('0', ')'),
   ('-', '_'), ('=', '+'), ('[', Char.ofNat 123), (']', Char.ofNat 125),
   (';', ':'), (Char.ofNat 39, '"'), ('\\', '|'), (',', '<'),
   ('.', '>'), ('/', '?')]

/-- First-match lookup in an association list of characters. -/
def lookupPair (l : List (Char × Char)) (c : Char) : Option Char :=
  match l with
  | [] => none
  | (a, b) :: rest => if a = c then some b else lookupPair rest c

/-- The shift transformation of a typed character: letters are uppercased
first, then `shift_map.get(char, char.upper() if char.isalpha() else char)`. -/
def applyShift (c : Char) : Char :=
  let c1 := if c.isAlpha then c.toUpper else c
  match lookupPair shiftSymbolMap c1 with
  | some m => m
  | none => if c1.isAlpha then c1.toUpper else c1

/-- Insertion at the cursor: `text[:pos] + ins + text[pos:]`. -/
def insertAt (text : List Char) (pos : Nat) (ins : List Char) : List Char :=
  text.take pos ++ ins ++ text.drop pos

/-- Embeds `InputField.handle_input` (ui/input_field.py:33), one key
event at a time, mirroring each guarded branch of the source. -/
def handle_input (f : InputField) (op : FieldOp) : InputField :=
  if !f.active then f
  else
    match op with
    | FieldOp.copyOp => f
    | FieldOp.pasteOp clip =>
      if f.clipboard_available && !clip.isEmpty then
        let remaining := f.max_length - f.text.length
        let ins := clip.take remaining
        { f with text := insertAt f.text f.cursor_position ins,
                 cursor_position := f.cursor_position + ins.length }
      else f
    | FieldOp.selectAllClear => { f with text := [], cursor_position := 0 }
    | FieldOp.leftKey =>
      if 0 < f.cursor_position then { f with cursor_position := f.cursor_position - 1 } else f
    | FieldOp.rightKey =>
      if f.cursor_position < f.text.length then
        { f with cursor_position := f.cursor_position + 1 }
      else f
    | FieldOp.homeKey => { f with cursor_position := 0 }
    | FieldOp.endKey => { f with cursor_position := f.text.length }
    | FieldOp.backspaceKey =>
      if 0 < f.cursor_position then
        { f with text := f.text.take (f.cursor_position - 1) ++ f.text.drop f.cursor_position,
                 cursor_position := f.cursor_position - 1 }
      else f
    | FieldOp.deleteKey =>
      if f.cursor_position < f.text.length then
        { f with text := f.text.take f.cursor_position ++ f.text.drop (f.cursor_position + 1) }
      else f
    | FieldOp.charKey c shift =>
      if f.text.length < f.max_length then
        let ch := if shift then applyShift c else c
        { f with text := insertAt f.text f.cursor_position [ch],
                 cursor_position := f.cursor_position + 1 }
      else f

/-- Embeds `InputField.clear`. -/
def fieldClear (f : InputField) : InputField :=
  { f with text := [], cursor_position := 0 }

/-- The invariant of claim C10: the cursor lies inside the text and the
text respects the length bound. -/
def fieldInv (f : InputField) : Prop :=
  f.cursor_position ≤ f.text.length ∧ f.text.length ≤ f.max_length

/-! ## Failure predicates for the entry-point claims -/

/-- A chained helper method fails: it raises, returns `None`, or returns
a falsy or error-carrying dict, so the chain step does not accept it. -/
def chainFailB (m : MethodOutcome) : Bool :=
  match m with
  | Except.error _ => true
  | Except.ok r => (methodPass r).isNone

/-- A truthiness-checked helper method fails: it raises, returns `None`,
or returns a falsy dict. -/
def truthyFailB (m : MethodOutcome) : Bool :=
  match m with
  | Except.error _ => true
  | Except.ok r => (optTruthy r).isNone

/-- The reel download fails: it raises, returns `None`, or returns a
falsy path. -/
def dlFailB (m : Except String (Option String)) : Bool :=
  match m with
  | Except.error _ => true
  | Except.ok none => true
  | Except.ok (some p) => p == ""

/-- A well-formed failure result: the dict carries a string under
`platform` and a string under `error`. -/
def isPlatformError (d : Dict) : Bool :=
  (match dictGet d "platform" with
   | some (PyVal.str _) => true
   | _ => false) &&
  (match dictGet d "error" with
   | some (PyVal.str _) => true
   | _ => false)

/-! # Theorems -/

/-- Every error dict is a well-formed failure result. -/
theorem isPlatformError_errDict (p e : String) : isPlatformError (errDict p e) = true := rfl

/-- C3: for the fixed VK clips URL, the pure extraction functions return
video id 456239137 and owner id 1069245351, independent of any network
access. -/
theorem spec_c3_vk_url_extraction :
    _extract_vk_video_id "https://vk.com/clips/id1069245351?feedType=ownerFeed&owner=1069245351&z=clip1069245351_456239137" = some "456239137" ∧
    _extract_vk_owner_id "https://vk.com/clips/id1069245351?feedType=ownerFeed&owner=1069245351&z=clip1069245351_456239137" = some "1069245351" := by
  exact ⟨rfl, rfl⟩

/-- C2 counterexample: the claim states `_parse_number` returns 0 rather
than raising for unparsable input, and in particular that
`_parse_number("abc")` is 0; but the uppercased text `ABC` contains the
letter `B`, so the suffix branch runs `re.findall(r"[\d.]+", "abc")[0]`
on an empty list and the call raises `IndexError` instead. -/
theorem spec_c2_counterexample :
    _parse_number "abc" = Except.error "IndexError: list index out of range" := by
  rfl

/-- C2 amended: `_parse_number` strips commas, spaces and double quotes;
when the stripped, uppercased text contains K, M or B (anywhere, checked
in that order) it multiplies the first decimal number by 1000, 10^6 or
10^9; absent such a letter it parses the first decimal number found, and
returns 0 when the text is empty or contains no digit or dot characters.
When a K/M/B letter is present but no digit or dot characters are, the
call raises `IndexError` instead of returning 0.  The listed examples
hold except `_parse_number("abc")`, which raises. -/
theorem spec_c2_parse_number_amended :
    _parse_number "1.2M" = Except.ok 1200000 ∧
    _parse_number "3K" = Except.ok 3000 ∧
    _parse_number "500" = Except.ok 500 ∧
    _parse_number "" = Except.ok 0 ∧
    _parse_number "1,234" = Except.ok 1234 ∧
    (∃ e, _parse_number "abc" = Except.error e) ∧
    (∀ text : String, ¬ text = "" →
      ((stripPy text).map Char.toUpper).contains 'K' = false →
      ((stripPy text).map Char.toUpper).contains 'M' = false →
      ((stripPy text).map Char.toUpper).contains 'B' = false →
      firstNumToken (stripPy text) = none →
      _parse_number text = Except.ok 0) := by
  refine ⟨by rfl, by rfl, by rfl, by rfl, by rfl, ⟨_, by rfl⟩, ?_⟩
  intro text hne hK hM hB htok
  unfold _parse_number
  simp only [if_neg hne, hK, hM, hB, htok, Bool.false_eq_true, if_false]

/-- C2 amended witness: a text with no K/M/B letter and no digit or dot
characters parses to 0. -/
theorem spec_c2_parse_number_amended_witness :
    _parse_number "xyz" = Except.ok 0 :=
  spec_c2_parse_number_amended.2.2.2.2.2.2 "xyz" (by decide) (by rfl) (by rfl) (by rfl) (by rfl)

/-- C7 counterexample: the claim states that an unparsable duration
string is not classified as a Short, but `PTabc` is not a well-formed
ISO-8601 duration and `_is_short` still classifies it as a Short: the
anchored regex matches the bare `PT` with all three groups absent, so the
total is 0 seconds. -/
theorem spec_c7_counterexample : _is_short "PTabc" = true := by
  rfl

/-- C7 amended: `_is_short` classifies a video as a Short exactly when
its duration string starts with `PT` and the optional `(\d+)H`, `(\d+)M`,
`(\d+)S` components sum to at most 60 seconds, absent components counting
as 0.  `PT1M0S` and `PT45S` are Shorts, `PT1M1S` and `PT2H` are not; an
empty string or a string not starting with `PT` is not a Short; but a
`PT`-prefixed string with malformed components (such as `PT` itself)
parses as 0 seconds and is classified as a Short. -/
theorem spec_c7_is_short_amended :
    _is_short "PT1M0S" = true ∧
    _is_short "PT45S" = true ∧
    _is_short "PT1M1S" = false ∧
    _is_short "" = false ∧
    _is_short "1M30S" = false ∧
    _is_short "abc" = false ∧
    _is_short "PT2H" = false ∧
    _is_short "PT" = true := by
  exact ⟨rfl, rfl, rfl, rfl, rfl, rfl, rfl, rfl⟩

/-- C8: on a menu with `n` options and selected index `i` in `[0, n)`,
`select_next` moves to `(i + 1) % n` (so the last option wraps to 0),
`select_previous` moves to `(i - 1) % n` (so index 0 wraps to the last
index), and the two compose to the identity on the selected index. -/
theorem spec_c8_menu_wrap (m : Menu) (i n : Int)
    (hn : n = (m.options.length : Int)) (hpos : 0 < n)
    (hi0 : 0 ≤ i) (hin : i < n) (hsel : m.selected_index = i) :
    (select_next m).selected_index = (i + 1) % n ∧
    (i = n - 1 → (select_next m).selected_index = 0) ∧
    (select_previous m).selected_index = (i - 1) % n ∧
    (i = 0 → (select_previous m).selected_index = n - 1) ∧
    (select_previous (select_next m)).selected_index = i := by
  have hnext : (select_next m).selected_index = (i + 1) % n := by
    simp [select_next, hsel, hn]
  have hprev : (select_previous m).selected_index = (i - 1) % n := by
    simp [select_previous, hsel, hn]
  have hneg : (-1 : Int) % n = n - 1 := by
    have h1 : ((-1) + n * 1 : Int) % n = (-1 : Int) % n := Int.add_mul_emod_self_left (-1) n 1
    have h2 : ((-1) + n * 1 : Int) = n - 1 := by ring
    rw [← h1, h2]
    exact Int.emod_eq_of_lt (by omega) (by omega)
  refine ⟨hnext, ?_, hprev, ?_, ?_⟩
  · intro hlast
    rw [hnext, hlast]
    have : (n - 1 + 1 : Int) = n := by ring
    rw [this, Int.emod_self]
  · intro h0
    rw [hprev, h0]
    simpa using hneg
  · have hcomp : (select_previous (select_next m)).selected_index = ((i + 1) % n - 1) % n := by
      simp [select_previous, select_next, hsel, hn]
    rw [hcomp]
    by_cases hlast : i = n - 1
    · rw [hlast]
      have h1 : (n - 1 + 1 : Int) = n := by ring
      rw [h1, Int.emod_self]
      simpa [hlast] using hneg
    · have hlt : i + 1 < n := by omega
      have h1 : (i + 1) % n = i + 1 := Int.emod_eq_of_lt (by omega) hlt
      rw [h1]
      have h2 : (i + 1 - 1 : Int) = i := by ring
      rw [h2]
      exact Int.emod_eq_of_lt hi0 hin

/-- C8 witness: a three-option menu at the last index wraps forward to 0,
index 0 wraps backward to the last index, and next-then-previous is the
identity. -/
theorem spec_c8_menu_wrap_witness :
    (select_next ⟨["START", "STATS", "EXIT"], 2⟩).selected_index = (2 + 1) % 3 ∧
    ((2 : Int) = 3 - 1 → (select_next ⟨["START", "STATS", "EXIT"], 2⟩).selected_index = 0) ∧
    (select_previous ⟨["START", "STATS", "EXIT"], 2⟩).selected_index = (2 - 1) % 3 ∧
    ((2 : Int) = 0 → (select_previous ⟨["START", "STATS", "EXIT"], 2⟩).selected_index = 3 - 1) ∧
    (select_previous (select_next ⟨["START", "STATS", "EXIT"], 2⟩)).selected_index = 2 :=
  spec_c8_menu_wrap ⟨["START", "STATS", "EXIT"], 2⟩ 2 3 (by decide) (by decide)
    (by decide) (by decide) rfl

/-- The appended header title contains the mark the existence check looks
for. -/
theorem cellHasDateMark_title : cellHasDateMark dateHeaderTitle = true := by decide

/-- C9: on a sheet whose header row does not yet contain the
record-added-date mark, `ensure_date_header` appends exactly one
`Дата добавления записи` cell and returns true; a second call finds the
header, performs no write and returns false; and any further number of
calls leaves the sheet unchanged, so the header row always ends up with
exactly one such column. -/
theorem spec_c9_date_header_idempotent (s : Sheet) (headers : List String)
    (rest : List (List String))
    (hrows : s.rows = headers :: rest)
    (hno : headers.any cellHasDateMark = false) :
    (ensure_date_header s).2 = true ∧
    (ensure_date_header s).1.rows = (headers ++ [dateHeaderTitle]) :: rest ∧
    (headers ++ [dateHeaderTitle]).count dateHeaderTitle = 1 ∧
    ensure_date_header (ensure_date_header s).1 = ((ensure_date_header s).1, false) ∧
    (∀ k, iterateEnsure k (ensure_date_header s).1 = (ensure_date_header s).1) := by
  have hbranch : ensure_date_header s = (⟨(headers ++ [dateHeaderTitle]) :: rest⟩, true) := by
    simp [ensure_date_header, hrows, hno]
  have hzero : headers.count dateHeaderTitle = 0 := by
    rw [List.count_eq_zero]
    intro hmem
    have hany : headers.any cellHasDateMark = true :=
      List.any_eq_true.mpr ⟨dateHeaderTitle, hmem, cellHasDateMark_title⟩
    rw [hno] at hany
    exact Bool.false_ne_true hany
  have hcount : (headers ++ [dateHeaderTitle]).count dateHeaderTitle = 1 := by
    rw [List.count_append, hzero]
    simp
  have hsecond : ensure_date_header (⟨(headers ++ [dateHeaderTitle]) :: rest⟩ : Sheet) =
      (⟨(headers ++ [dateHeaderTitle]) :: rest⟩, false) := by
    have hany : (headers ++ [dateHeaderTitle]).any cellHasDateMark = true := by
      simp [List.any_append, cellHasDateMark_title]
    simp [ensure_date_header, hany]
  have hiter : ∀ k, iterateEnsure k (⟨(headers ++ [dateHeaderTitle]) :: rest⟩ : Sheet) =
      (⟨(headers ++ [dateHeaderTitle]) :: rest⟩ : Sheet) := by
    intro k
    induction k with
    | zero => rfl
    | succ j ih =>
      rw [iterateEnsure, hsecond]
      exact ih
  rw [hbranch]
  exact ⟨rfl, rfl, hcount, hsecond, hiter⟩

/-- C9 witness: a concrete two-column header sheet gains the
record-added-date column once and is untouched by a second call. -/
theorem spec_c9_date_header_idempotent_witness :
    (ensure_date_header ⟨[["Видео", "Ссылка"]]⟩).2 = true ∧
    (ensure_date_header ⟨[["Видео", "Ссылка"]]⟩).1.rows =
      (["Видео", "Ссылка"] ++ [dateHeaderTitle]) :: [] ∧
    (["Видео", "Ссылка"] ++ [dateHeaderTitle]).count dateHeaderTitle = 1 ∧
    ensure_date_header (ensure_date_header ⟨[["Видео", "Ссылка"]]⟩).1 =
      ((ensure_date_header ⟨[["Видео", "Ссылка"]]⟩).1, false) ∧
    (∀ k, iterateEnsure k (ensure_date_header ⟨[["Видео", "Ссылка"]]⟩).1 =
      (ensure_date_header ⟨[["Видео", "Ссылка"]]⟩).1) :=
  spec_c9_date_header_idempotent ⟨[["Видео", "Ссылка"]]⟩ ["Видео", "Ссылка"] []
    rfl (by decide)

/-- C10: every key event `handle_input` can dispatch on, and the public
`clear`, preserve the invariant that the cursor stays inside the text and
the text stays within the length bound. -/
theorem spec_c10_input_field_invariant (f : InputField) (op : FieldOp)
    (h : fieldInv f) :
    fieldInv (handle_input f op) ∧ fieldInv (fieldClear f) := by
  obtain ⟨h1, h2⟩ := h
  constructor
  · by_cases ha : f.active
    · cases op <;>
        simp only [handle_input, ha, Bool.not_true, Bool.false_eq_true, if_false, fieldInv,
          insertAt, List.length_append, List.length_take, List.length_drop,
          List.length_singleton] <;>
        (try split_ifs) <;>
        (try simp_all [fieldInv, List.length_append, List.length_take, List.length_drop]) <;>
        omega
    · simp only [handle_input, ha, Bool.not_false, if_true]
      exact ⟨h1, h2⟩
  · exact ⟨Nat.le_refl 0, Nat.zero_le _⟩

/-- C10 witness: a concrete in-invariant field stays in-invariant after a
paste that hits the length bound. -/
theorem spec_c10_input_field_invariant_witness :
    fieldInv (handle_input ⟨"vk.com".data, 3, 8, true, true⟩
      (FieldOp.pasteOp "https://".data)) ∧
    fieldInv (fieldClear ⟨"vk.com".data, 3, 8, true, true⟩) :=
  spec_c10_input_field_invariant ⟨"vk.com".data, 3, 8, true, true⟩
    (FieldOp.pasteOp "https://".data) (by constructor <;> decide)

/-- C5: `change_state` with a registered name leaves the current scene
untouched and only records the pending transition; the following
`update` call runs the old scene exit hook and the new scene enter hook,
installs the new scene and clears the pending slot; `change_state` with
an unregistered name raises and leaves both the current scene and the
pending slot unchanged. -/
theorem spec_c5_state_machine_two_phase (m : StateMachine) (name bad c : String)
    (exitFails enterFails updateFails : String → Bool)
    (hreg : m.states.contains name = true)
    (hcur : m.current_state = some c)
    (hex : exitFails c = false)
    (hen : enterFails name = false)
    (hup : updateFails name = false)
    (hbad : m.states.contains bad = false) :
    change_state m name = ({ m with next_state := some name }, Except.ok ()) ∧
    (change_state m name).1.current_state = m.current_state ∧
    machineUpdate { m with next_state := some name } exitFails enterFails updateFails =
      ({ m with current_state := some name, next_state := none },
       [SceneEv.exitOk c, SceneEv.enterOk name, SceneEv.updateOk name]) ∧
    change_state m bad = (m, Except.error ("State " ++ bad ++ " not found")) := by
  have hmem : name ∈ m.states := by simpa using hreg
  have hbadmem : bad ∉ m.states := by simpa using hbad
  have hchange : change_state m name = ({ m with next_state := some name }, Except.ok ()) := by
    simp [change_state, hmem]
  refine ⟨hchange, by rw [hchange], ?_, by simp [change_state, hbadmem]⟩
  have hphase :
      transitionPhase { m with next_state := some name } exitFails enterFails =
        ({ m with current_state := some name, next_state := none },
         [SceneEv.exitOk c, SceneEv.enterOk name], false) := by
    simp [transitionPhase, hmem, hcur, hex, hen]
  simp [machineUpdate, hphase, hup]

/-- C5 witness: a concrete two-scene machine defers a valid transition to
the next update and rejects an unknown scene name. -/
theorem spec_c5_state_machine_two_phase_witness :
    change_state ⟨["menu", "video_stats"], some "menu", none⟩ "video_stats" =
      (⟨["menu", "video_stats"], some "menu", some "video_stats"⟩, Except.ok ()) ∧
    (change_state ⟨["menu", "video_stats"], some "menu", none⟩ "video_stats").1.current_state =
      (⟨["menu", "video_stats"], some "menu", none⟩ : StateMachine).current_state ∧
    machineUpdate ⟨["menu", "video_stats"], some "menu", some "video_stats"⟩
      (fun _ => false) (fun _ => false) (fun _ => false) =
      (⟨["menu", "video_stats"], some "video_stats", none⟩,
       [SceneEv.exitOk "menu", SceneEv.enterOk "video_stats", SceneEv.updateOk "video_stats"]) ∧
    change_state ⟨["menu", "video_stats"], some "menu", none⟩ "nope" =
      (⟨["menu", "video_stats"], some "menu", none⟩,
       Except.error ("State " ++ "nope" ++ " not found")) :=
  spec_c5_state_machine_two_phase ⟨["menu", "video_stats"], some "menu", none⟩
    "video_stats" "nope" "menu" (fun _ => false) (fun _ => false) (fun _ => false)
    (by decide) rfl rfl rfl rfl (by decide)

/-- Lower bound of the rounding step. -/
theorem le_pyRoundInt {q : ℚ} {a : ℤ} (ha : (a : ℚ) ≤ q) : a ≤ pyRoundInt q := by
  have hf : a ≤ ⌊q⌋ := Int.le_floor.mpr ha
  unfold pyRoundInt
  dsimp only
  split_ifs <;> omega

/-- Upper bound of the rounding step. -/
theorem pyRoundInt_le {q : ℚ} {b : ℤ} (hb : q ≤ (b : ℚ)) : pyRoundInt q ≤ b := by
  have hf : ⌊q⌋ ≤ b := by
    have h := Int.floor_le_floor hb
    simpa using h
  have hfl : (⌊q⌋ : ℚ) ≤ q := Int.floor_le q
  have hstrict : ¬ q - (⌊q⌋ : ℚ) < 1 / 2 → ⌊q⌋ + 1 ≤ b := by
    intro hge
    have h12 : (⌊q⌋ : ℚ) + 1 / 2 ≤ q := by
      push_neg at hge
      linarith
    have hlt : (⌊q⌋ : ℚ) < (b : ℚ) := by linarith
    have : ⌊q⌋ < b := by exact_mod_cast hlt
    omega
  unfold pyRoundInt
  dsimp only
  split_ifs with h1 h2 h3
  · exact hf
  · exact hstrict h1
  · exact hf
  · exact hstrict h1

/-- C4: `calculate_video_difference` combines the three guarded
percentage differences with weights 0.4/0.3/0.3, clamps into
`[1.0, 100.0]` and rounds to one decimal, so every inspectable input
yields a value in `[1.0, 100.0]`; any inspection failure yields exactly
3.0. -/
theorem spec_c4_video_difference_bounds :
    calculate_video_difference none = 3 ∧
    ∀ o p : VideoMeta,
      1 ≤ calculate_video_difference (some (o, p)) ∧
      calculate_video_difference (some (o, p)) ≤ 100 := by
  have key : ∀ total : ℚ,
      1 ≤ pyRound1 (max 1 (min 100 total)) ∧ pyRound1 (max 1 (min 100 total)) ≤ 100 := by
    intro total
    set clamped := max 1 (min 100 total) with hc
    have hlo : (1 : ℚ) ≤ clamped := le_max_left 1 _
    have fhi : clamped ≤ 100 := max_le (by norm_num) (min_le_left _ _)
    have hk1 : (10 : ℤ) ≤ pyRoundInt (clamped * 10) := by
      apply le_pyRoundInt
      push_cast
      linarith
    have hk2 : pyRoundInt (clamped * 10) ≤ (1000 : ℤ) := by
      apply pyRoundInt_le
      push_cast
      linarith
    have hcast1 : (10 : ℚ) ≤ (pyRoundInt (clamped * 10) : ℚ) := by exact_mod_cast hk1
    have hcast2 : (pyRoundInt (clamped * 10) : ℚ) ≤ 1000 := by exact_mod_cast hk2
    constructor
    · rw [pyRound1, le_div_iff₀ (by norm_num : (0 : ℚ) < 10)]
      linarith
    · rw [pyRound1, div_le_iff₀ (by norm_num : (0 : ℚ) < 10)]
      linarith
  exact ⟨rfl, fun o p => key _⟩

/-- The YouTube channel fallback chain ends in an error dict whenever the
scraping method fails (the analytics placeholder never yields data). -/
theorem youtubeChainRest_fail (scrap : MethodOutcome) (log : List String)
    (h : chainFailB scrap = true) :
    isPlatformError (youtubeChainRest scrap log).1 = true := by
  cases scrap with
  | error e => rfl
  | ok r =>
    have hm : methodPass r = none := Option.isNone_iff_eq_none.mp h
    simp only [youtubeChainRest, hm]
    rfl

/-- `check_youtube_stats` yields an error dict when both the API and the
scraping method fail. -/
theorem check_youtube_stats_fail (url : String) (hasKey : Bool) (api scrap : MethodOutcome)
    (h1 : chainFailB api = true) (h2 : chainFailB scrap = true) :
    isPlatformError (check_youtube_stats url hasKey api scrap).1 = true := by
  cases hasKey with
  | false => exact youtubeChainRest_fail scrap [] h2
  | true =>
    cases api with
    | error e => rfl
    | ok r =>
      have hm : methodPass r = none := Option.isNone_iff_eq_none.mp h1
      simp only [check_youtube_stats, hm]
      exact youtubeChainRest_fail scrap _ h2

/-- The single-Short scraping fallback ends in an error dict when the
scraping method fails. -/
theorem youtubeShortScrapRest_fail (u : String) (scrap : MethodOutcome) (log : List String)
    (h : truthyFailB scrap = true) :
    isPlatformError (youtubeShortScrapRest u scrap log).1 = true := by
  cases scrap with
  | error e => rfl
  | ok r =>
    have hm : optTruthy r = none := Option.isNone_iff_eq_none.mp h
    simp only [youtubeShortScrapRest, hm]
    rfl

/-- `get_youtube_short_data` yields an error dict when the API fetch and
the scraping fetch both fail, for every URL. -/
theorem get_youtube_short_data_fail (url : String) (hasKey : Bool)
    (byId scrap : MethodOutcome)
    (h3 : truthyFailB byId = true) (h4 : truthyFailB scrap = true) :
    isPlatformError (get_youtube_short_data url hasKey byId scrap).1 = true := by
  cases hx : _extract_youtube_video_id url with
  | none => simp only [get_youtube_short_data, hx]; rfl
  | some v =>
    simp only [get_youtube_short_data, hx]
    cases hasKey with
    | false => exact youtubeShortScrapRest_fail url scrap [] h4
    | true =>
      cases byId with
      | error e => rfl
      | ok r =>
        have hm : optTruthy r = none := Option.isNone_iff_eq_none.mp h3
        simp only [hm]
        exact youtubeShortScrapRest_fail url scrap _ h4

/-- `check_instagram_stats` yields an error dict when scraping fails (the
two API placeholders never yield data), for every URL. -/
theorem check_instagram_stats_fail (url : String) (hasKey : Bool) (scrap : MethodOutcome)
    (h : chainFailB scrap = true) :
    isPlatformError (check_instagram_stats url hasKey scrap).1 = true := by
  cases hx : _extract_instagram_username url with
  | none => simp only [check_instagram_stats, hx]; rfl
  | some u =>
    simp only [check_instagram_stats, hx]
    cases hasKey <;>
      cases scrap with
      | error e => rfl
      | ok r =>
        have hm : methodPass r = none := Option.isNone_iff_eq_none.mp h
        simp only [hm]
        rfl

/-- `get_instagram_reel_data` yields an error dict when the download
fails, for every URL. -/
theorem get_instagram_reel_data_fail (url : String) (dl : Except String (Option String))
    (h : dlFailB dl = true) :
    isPlatformError (get_instagram_reel_data url dl).1 = true := by
  cases hx : _extract_instagram_reel_id url with
  | none => simp only [get_instagram_reel_data, hx]; rfl
  | some rid =>
    cases dl with
    | error e => simp only [get_instagram_reel_data, hx]; rfl
    | ok vp =>
      cases vp with
      | none => simp only [get_instagram_reel_data, hx]; rfl
      | some p =>
        have hp : p = "" := eq_of_beq h
        simp only [get_instagram_reel_data, hx, hp]
        rfl

/-- `check_tiktok_stats` yields an error dict when scraping fails (the
API placeholder never yields data), for every URL. -/
theorem check_tiktok_stats_fail (url : String) (hasKey : Bool) (scrap : MethodOutcome)
    (h : chainFailB scrap = true) :
    isPlatformError (check_tiktok_stats url hasKey scrap).1 = true := by
  cases hx : _extract_tiktok_username url with
  | none => simp only [check_tiktok_stats, hx]; rfl
  | some u =>
    simp only [check_tiktok_stats, hx]
    cases hasKey <;>
      cases scrap with
      | error e => rfl
      | ok r =>
        have hm : methodPass r = none := Option.isNone_iff_eq_none.mp h
        simp only [hm]
        rfl

/-- `check_likee_stats` yields an error dict when scraping fails. -/
theorem check_likee_stats_fail (url : String) (scrap : MethodOutcome)
    (h : chainFailB scrap = true) :
    isPlatformError (check_likee_stats url scrap).1 = true := by
  cases scrap with
  | error e => rfl
  | ok r =>
    have hm : methodPass r = none := Option.isNone_iff_eq_none.mp h
    simp only [check_likee_stats, hm]
    rfl

/-- `get_vk_clip_data` yields an error dict when the API fetch fails or
the key is absent, for every URL. -/
theorem get_vk_clip_data_fail (url : String) (hasKey : Bool) (byId : MethodOutcome)
    (h : truthyFailB byId = true) :
    isPlatformError (get_vk_clip_data url hasKey byId).1 = true := by
  cases hv : _extract_vk_video_id url with
  | none => simp only [get_vk_clip_data, hv]; rfl
  | some v =>
    cases ho : _extract_vk_owner_id url with
    | none => simp only [get_vk_clip_data, hv, ho]; rfl
    | some o =>
      simp only [get_vk_clip_data, hv, ho]
      cases hasKey with
      | false => rfl
      | true =>
        cases byId with
        | error e => rfl
        | ok r =>
          have hm : optTruthy r = none := Option.isNone_iff_eq_none.mp h
          simp only [hm]
          rfl

/-- C1: for every URL, when every underlying request/extraction method
fails, each of the eight aggregator entry points returns a dict carrying
a `platform` key and an `error` string; no exception reaches the caller
(each entry point is a total function whose except-branches produce the
same error dict shape). -/
theorem spec_c1_entry_points_error_containment
    (url : String) (hasYt hasIg hasTk hasVk : Bool)
    (ytApi ytScrap ytById ytShortScrap igScrap tkScrap likScrap vkClips vkById : MethodOutcome)
    (igDl : Except String (Option String))
    (h1 : chainFailB ytApi = true) (h2 : chainFailB ytScrap = true)
    (h3 : truthyFailB ytById = true) (h4 : truthyFailB ytShortScrap = true)
    (h5 : chainFailB igScrap = true) (h6 : dlFailB igDl = true)
    (h7 : chainFailB tkScrap = true) (h8 : chainFailB likScrap = true)
    (h9 : truthyFailB vkById = true) :
    isPlatformError (check_youtube_stats url hasYt ytApi ytScrap).1 = true ∧
    isPlatformError (get_youtube_short_data url hasYt ytById ytShortScrap).1 = true ∧
    isPlatformError (check_instagram_stats url hasIg igScrap).1 = true ∧
    isPlatformError (get_instagram_reel_data url igDl).1 = true ∧
    isPlatformError (check_tiktok_stats url hasTk tkScrap).1 = true ∧
    isPlatformError (check_vk_stats url vkClips).1 = true ∧
    isPlatformError (check_likee_stats url likScrap).1 = true ∧
    isPlatformError (get_vk_clip_data url hasVk vkById).1 = true :=
  ⟨check_youtube_stats_fail url hasYt ytApi ytScrap h1 h2,
   get_youtube_short_data_fail url hasYt ytById ytShortScrap h3 h4,
   check_instagram_stats_fail url hasIg igScrap h5,
   get_instagram_reel_data_fail url igDl h6,
   check_tiktok_stats_fail url hasTk tkScrap h7,
   rfl,
   check_likee_stats_fail url likScrap h8,
   get_vk_clip_data_fail url hasVk vkById h9⟩

/-- C1 witness: with every helper returning `None` (for example because
the URL is unreachable), all eight entry points produce well-formed
platform error dicts on a concrete URL. -/
theorem spec_c1_entry_points_error_containment_witness :
    chainFailB (Except.ok none) = true ∧
    truthyFailB (Except.ok none) = true ∧
    dlFailB (Except.ok none) = true ∧
    (isPlatformError (check_youtube_stats "https://example.com/x" true (Except.ok none) (Except.ok none)).1 = true ∧
     isPlatformError (get_youtube_short_data "https://example.com/x" true (Except.ok none) (Except.ok none)).1 = true ∧
     isPlatformError (check_instagram_stats "https://example.com/x" true (Except.ok none)).1 = true ∧
     isPlatformError (get_instagram_reel_data "https://example.com/x" (Except.ok none)).1 = true ∧
     isPlatformError (check_tiktok_stats "https://example.com/x" true (Except.ok none)).1 = true ∧
     isPlatformError (check_vk_stats "https://example.com/x" (Except.ok none)).1 = true ∧
     isPlatformError (check_likee_stats "https://example.com/x" (Except.ok none)).1 = true ∧
     isPlatformError (get_vk_clip_data "https://example.com/x" true (Except.ok none)).1 = true) :=
  ⟨rfl, rfl, rfl,
   spec_c1_entry_points_error_containment "https://example.com/x" true true true true
     (Except.ok none) (Except.ok none) (Except.ok none) (Except.ok none) (Except.ok none)
     (Except.ok none) (Except.ok none) (Except.ok none) (Except.ok none) (Except.ok none)
     rfl rfl rfl rfl rfl rfl rfl rfl rfl⟩

/-- C6: with an empty credential map, each profile lookup that has a
scraping fallback (YouTube channel, Instagram profile, TikTok profile,
Likee profile) still invokes its scraping method instead of
short-circuiting; and the VK single-clip lookup, which has no scraping
fallback, returns the explicit `Brak VK API key` error.  However the VK
profile-clips lookup `check_vk_stats` never reaches its scraping
fallback: the call to the missing method `_extract_vk_user_id` raises
`AttributeError` first, and the call returns that error having attempted
no helper method at all — the conjunct about `check_vk_stats` documents
this divergence from the claim. -/
theorem spec_c6_credential_absence_fallback :
    (∀ (url : String) (api scrap : MethodOutcome),
      "_youtube_scraping_stats" ∈ (check_youtube_stats url false api scrap).2) ∧
    (∀ scrap : MethodOutcome,
      "_instagram_scraping_stats" ∈
        (check_instagram_stats "https://www.instagram.com/raachel_fb" false scrap).2) ∧
    (∀ scrap : MethodOutcome,
      "_tiktok_scraping_stats" ∈
        (check_tiktok_stats "https://www.tiktok.com/@daniryb_fb" false scrap).2) ∧
    (∀ (url : String) (scrap : MethodOutcome),
      "_likee_scraping_stats" ∈ (check_likee_stats url scrap).2) ∧
    (∀ (url : String) (clips : MethodOutcome),
      check_vk_stats url clips = (errDict "VK" vkAttributeError, [])) ∧
    (∀ byId : MethodOutcome,
      get_vk_clip_data "https://vk.com/clips/id1069245351?feedType=ownerFeed&owner=1069245351&z=clip1069245351_456239137" false byId =
        (errDict "VK" "Brak VK API key", [])) := by
  refine ⟨?_, ?_, ?_, ?_, fun url clips => rfl, fun byId => rfl⟩
  · intro url api scrap
    cases scrap with
    | error e => simp [check_youtube_stats, youtubeChainRest]
    | ok r =>
      cases hm : methodPass r <;>
        simp only [check_youtube_stats, youtubeChainRest, hm] <;>
        simp [methodPass, _youtube_analytics_stats]
  · intro scrap
    have hx : _extract_instagram_username "https://www.instagram.com/raachel_fb" =
        some "raachel_fb" := rfl
    cases scrap with
    | error e => simp [check_instagram_stats, hx]
    | ok r =>
      cases hm : methodPass r <;>
        simp only [check_instagram_stats, hx, hm] <;>
        simp [methodPass, _instagram_api_stats, _instagram_graph_stats]
  · intro scrap
    have hx : _extract_tiktok_username "https://www.tiktok.com/@daniryb_fb" =
        some "daniryb_fb" := rfl
    cases scrap with
    | error e => simp [check_tiktok_stats, hx]
    | ok r =>
      cases hm : methodPass r <;>
        simp only [check_tiktok_stats, hx, hm] <;>
        simp [methodPass, _tiktok_api_stats]
  · intro url scrap
    cases scrap with
    | error e => simp [check_likee_stats]
    | ok r =>
      cases hm : methodPass r <;>
        simp only [check_likee_stats, hm] <;>
        simp

end RetroMenu
